import Mathlib

/-!
# A verification development for the `tea` terminal-UI runtime (src/tea.go)

Shallow embedding of the event-loop core: messages and commands, the `Batch`
constructor, the differential renderer, the sequential main loop of `Start`,
the input-feeder goroutine and the command-dispatch goroutine, each modelled
as an explicit state-passing / trace-producing function translated from the
Go source.  The application-supplied model type is a type parameter `M`,
read errors are a type parameter `E`, and decoded key events are `Nat`
(their payload is opaque to the core).
-/

namespace Tea

/-- `Msg` (tea.go line 14, `Msg interface{}`) together with the three built-in
shapes the loop discriminates: `quitM` is `quitMsg` (line 60), `batchM` is
`batchMsg []Cmd` (line 63), `keyM` is `KeyMsg` wrapping a decoded key event,
and `appM` stands for the opaque application-defined messages. -/
inductive Msg : Type where
  | quitM  : Msg
  | batchM : List (Option (Unit → Msg)) → Msg
  | keyM   : Nat → Msg
  | appM   : Nat → Msg

/-- `Cmd func() Msg` (tea.go line 20).  A Go function value may be `nil`
("considered a no-op"), so a command is an optional thunk. -/
abbrev Cmd : Type := Option (Unit → Msg)

/-- A message is "ordinary" when it is neither the quit sentinel nor a batch
signal, i.e. it is handed to the update function by the loop. -/
def Msg.isOrdinary : Msg → Bool
  | Msg.quitM => false
  | Msg.batchM _ => false
  | Msg.keyM _ => true
  | Msg.appM _ => true

/-- `Batch` (tea.go lines 24-31): zero commands give the nil command,
otherwise a thunk producing `batchMsg(cmds)`. -/
def Batch (cmds : List Cmd) : Cmd :=
  if cmds.length = 0 then none
  else some (fun _ => Msg.batchM cmds)

/-- `Quit` (tea.go lines 55-57): a command body returning `quitMsg{}`. -/
def Quit : Unit → Msg := fun _ => Msg.quitM

/-- One terminal-output side effect performed by the renderer:
`termenv.ClearLines(n)` or `io.WriteString(os.Stdout, s)`. -/
inductive OutAct : Type where
  | clearLines : Nat → OutAct
  | write : String → OutAct
deriving DecidableEq

/-- `strings.Count(s, "\r\n")` on the character list of `s`: the number of
non-overlapping occurrences of the two-character sequence CR LF. -/
def countCRLF : List Char → Nat
  | '\r' :: '\n' :: rest => countCRLF rest + 1
  | _ :: rest => countCRLF rest
  | [] => 0

/-- `strings.Count(s, "\r\n")` (tea.go line 170). -/
def countCRLFStr (s : String) : Nat := countCRLF s.data

/-- `strings.Replace(s, "\n", "\r\n", -1)` on the character list: every LF
becomes CR LF. -/
def crlfyChars : List Char → List Char
  | [] => []
  | '\n' :: rest => '\r' :: '\n' :: crlfyChars rest
  | c :: rest => c :: crlfyChars rest

/-- `strings.Replace(s, "\n", "\r\n", -1)` (tea.go line 175). -/
def crlfReplace (s : String) : String := ⟨crlfyChars s.data⟩

/-- `Program.render` (tea.go lines 161-183), as a function of the view
function, the cached frame `p.currentRender`, and the model.  Returns the new
cache value and the list of terminal-output actions, in order.  Faithful to
the source order: the cache is assigned the new view (line 169) *before*
`linesRendered` is counted (line 170), and the CR LF normalization of the
written text happens after the count (line 175); the clear is skipped when
the count is zero (line 178). -/
def renderStep {M : Type} (view : M → String) (currentRender : String)
    (model : M) : String × List OutAct :=
  let v := view model
  if v = currentRender then (currentRender, [])
  else
    let cr := v
    let linesRendered := countCRLFStr cr
    let v2 := crlfReplace v
    (cr, (if linesRendered > 0 then [OutAct.clearLines linesRendered] else [])
          ++ [OutAct.write v2])

/-- `Program` (tea.go lines 45-52): the three supplied functions plus the
frame cache `currentRender`.  The mutex only serializes terminal writes and
is not part of the sequential model. -/
structure Program (M : Type) where
  init : Unit → M × Cmd
  update : Msg → M → M × Cmd
  view : M → String
  currentRender : String

/-- `NewProgram` (tea.go lines 66-74): the struct literal leaves
`currentRender` at the Go zero value for `string`, the empty string. -/
def NewProgram {M : Type} (init : Unit → M × Cmd) (update : Msg → M → M × Cmd)
    (view : M → String) : Program M :=
  { init := init, update := update, view := view, currentRender := "" }

/-- One arrival at the main loop's `select` (tea.go lines 133-137): either a
read error received from `errs` or a message received from `msgs`. -/
inductive Delivery (E : Type) : Type where
  | errD : E → Delivery E
  | msgD : Msg → Delivery E

/-- A delivery on which the loop returns: an error, or the quit message. -/
def Delivery.isTerminal {E : Type} : Delivery E → Bool
  | Delivery.errD _ => true
  | Delivery.msgD Msg.quitM => true
  | Delivery.msgD _ => false

/-- An observable event of the main loop: a send on the `cmds` channel, an
invocation of `p.update`, or a terminal-output action of `p.render`. -/
inductive Ev : Type where
  | submit : Cmd → Ev
  | updCall : Msg → Ev
  | outEv : OutAct → Ev

/-- Result of running the main loop on a finite delivery sequence.
`retval = none` means the deliveries were exhausted with the loop still
blocked in `select`; `retval = some none` is `return nil` (quit);
`retval = some (some e)` is `return err`. -/
structure RunRes (M E : Type) where
  retval : Option (Option E)
  trace : List Ev
  model : M
  currentRender : String

/-- The `for { select ... } }` loop of `Start` (tea.go lines 132-157), run
sequentially on the sequence of deliveries its `select` receives.
An error closes `done` and returns it (lines 134-136); a quit message closes
`done` and returns nil (lines 140-143); a batch message sends each contained
command on `cmds` and continues without updating (lines 146-151); any other
message is passed to `p.update`, the returned command is sent on `cmds`
unconditionally, and the new model is rendered (lines 153-155). -/
def runLoop {M E : Type} (update : Msg → M → M × Cmd) (view : M → String) :
    M → String → List (Delivery E) → RunRes M E
  | m, cr, [] => ⟨none, [], m, cr⟩
  | m, cr, Delivery.errD e :: _ => ⟨some (some e), [], m, cr⟩
  | m, cr, Delivery.msgD Msg.quitM :: _ => ⟨some none, [], m, cr⟩
  | m, cr, Delivery.msgD (Msg.batchM cs) :: rest =>
      let r := runLoop update view m cr rest
      ⟨r.retval, cs.map Ev.submit ++ r.trace, r.model, r.currentRender⟩
  | m, cr, Delivery.msgD (Msg.keyM k) :: rest =>
      let mc := update (Msg.keyM k) m
      let ro := renderStep view cr mc.1
      let r := runLoop update view mc.1 ro.1 rest
      ⟨r.retval,
        Ev.updCall (Msg.keyM k) :: Ev.submit mc.2 :: ro.2.map Ev.outEv ++ r.trace,
        r.model, r.currentRender⟩
  | m, cr, Delivery.msgD (Msg.appM n) :: rest =>
      let mc := update (Msg.appM n) m
      let ro := renderStep view cr mc.1
      let r := runLoop update view mc.1 ro.1 rest
      ⟨r.retval,
        Ev.updCall (Msg.appM n) :: Ev.submit mc.2 :: ro.2.map Ev.outEv ++ r.trace,
        r.model, r.currentRender⟩

/-- Result of `Start`.  `restoreCalls` counts invocations of the deferred
`restoreTerminal()`; `model`/`currentRender` are `none` on the early-error
path where the program state was never set up. -/
structure StartRes (M E : Type) where
  retval : Option (Option E)
  restoreCalls : Nat
  trace : List Ev
  model : Option M
  currentRender : Option String

/-- `Program.Start` (tea.go lines 77-158).  `initTermErr` is the result of
`initTerminal()`: on `some e`, `Start` returns `e` before the
`defer restoreTerminal()` is registered (lines 87-91), so no restore happens.
Otherwise `p.init()` runs, a non-nil initial command is sent on `cmds` from a
spawned goroutine (lines 94-99), the initial view is rendered (line 102), and
the main loop consumes the delivery sequence; the deferred restore runs
exactly once when (and only when) the loop returns. -/
def start {M E : Type} (p : Program M) (initTermErr : Option E)
    (ds : List (Delivery E)) : StartRes M E :=
  match initTermErr with
  | some e => ⟨some (some e), 0, [], none, none⟩
  | none =>
    let ic := p.init ()
    let initSub : List Ev :=
      match ic.2 with
      | none => []
      | some f => [Ev.submit (some f)]
    let r0 := renderStep p.view p.currentRender ic.1
    let r := runLoop p.update p.view ic.1 r0.1 ds
    ⟨r.retval, if r.retval.isSome then 1 else 0,
      initSub ++ r0.2.map Ev.outEv ++ r.trace, some r.model, some r.currentRender⟩

/-- An action taken by the input-feeder goroutine (tea.go lines 105-113):
a call to `ReadKey`, a send on `errs`, or a send on `msgs`. -/
inductive FeedAct (E : Type) : Type where
  | readAct : FeedAct E
  | sendErr : E → FeedAct E
  | sendMsg : Msg → FeedAct E

/-- The input-feeder goroutine (tea.go lines 105-113) as a function of a
finite prefix of `ReadKey` results, each a pair of the decoded key and an
optional error.  The goroutine's body is
`msg, err := ReadKey(os.Stdin); if err != nil { errs <- err }; msgs <- KeyMsg(msg)`
in an unconditional `for` loop: on an error it sends the error and then still
falls through to send `KeyMsg(msg)` and read again.  The trace lists the
operations the goroutine performs, in program order. -/
def feederTrace {E : Type} : List (Nat × Option E) → List (FeedAct E)
  | [] => []
  | (k, some e) :: rest =>
      FeedAct.readAct :: FeedAct.sendErr e :: FeedAct.sendMsg (Msg.keyM k)
        :: feederTrace rest
  | (k, none) :: rest =>
      FeedAct.readAct :: FeedAct.sendMsg (Msg.keyM k) :: feederTrace rest

/-- The command-dispatch goroutine's handling of one command received on
`cmds` (tea.go lines 121-127): a nil command is dropped (`if cmd != nil`
fails, no goroutine is spawned, no execution); a non-nil command is executed
and its message is sent on `msgs`.  The result lists the messages produced. -/
def dispatchOne (c : Cmd) : List Msg :=
  match c with
  | none => []
  | some f => [f ()]

/-- The messages produced by the dispatch goroutine for a finite sequence of
commands received on `cmds`. -/
def dispatchAll (cs : List Cmd) : List Msg := (cs.map dispatchOne).flatten

/-- The commands actually executed (spawned as goroutines) by the dispatcher
out of a received sequence: exactly the non-nil ones. -/
def executedOf (cs : List Cmd) : List (Unit → Msg) := cs.filterMap id

/-- The commands a loop trace sends on the `cmds` channel, in order. -/
def submitsOf (t : List Ev) : List Cmd :=
  t.filterMap fun e =>
    match e with
    | Ev.submit c => some c
    | _ => none

/-- The messages a loop trace passes to the update function, in order. -/
def updCallsOf (t : List Ev) : List Msg :=
  t.filterMap fun e =>
    match e with
    | Ev.updCall m => some m
    | _ => none

/-- The number of terminal writes among a list of output actions. -/
def writeCount (acts : List OutAct) : Nat :=
  (acts.filter fun a =>
    match a with
    | OutAct.write _ => true
    | _ => false).length

/-- A concrete update function for exercising the loop: a counter that
increments on every message and never issues a command, as in the spec's
increment scenario. -/
def incUpdate : Msg → Nat → Nat × Cmd := fun _ n => (n + 1, none)

/-- A concrete view function returning the empty frame for every model. -/
def constEmptyView : Nat → String := fun _ => ""

/-- A concrete `init` returning model `0` and the nil command. -/
def zeroInit : Unit → Nat × Cmd := fun _ => ((0 : Nat), none)

/-- A concrete program built by `NewProgram` from the pieces above. -/
def progZero : Program Nat := NewProgram zeroInit incUpdate constEmptyView

/-! ## Helper lemmas -/

theorem updCallsOf_append (a b : List Ev) :
    updCallsOf (a ++ b) = updCallsOf a ++ updCallsOf b :=
  List.filterMap_append a b _

theorem updCallsOf_map_submit (cs : List Cmd) :
    updCallsOf (cs.map Ev.submit) = [] := by
  induction cs with
  | nil => rfl
  | cons c cs ih => simp [updCallsOf, List.filterMap_cons]

theorem updCallsOf_map_outEv (acts : List OutAct) :
    updCallsOf (acts.map Ev.outEv) = [] := by
  induction acts with
  | nil => rfl
  | cons a acts ih => simp [updCallsOf, List.filterMap_cons]

theorem updCallsOf_cons_updCall (m : Msg) (t : List Ev) :
    updCallsOf (Ev.updCall m :: t) = m :: updCallsOf t := by
  simp [updCallsOf, List.filterMap_cons]

theorem updCallsOf_cons_submit (c : Cmd) (t : List Ev) :
    updCallsOf (Ev.submit c :: t) = updCallsOf t := by
  simp [updCallsOf, List.filterMap_cons]

/-- Every message the loop ever passes to the update function is ordinary:
the quit and batch branches return or `continue` before `p.update` runs. -/
theorem runLoop_updCalls_all_ordinary {M E : Type}
    (u : Msg → M → M × Cmd) (v : M → String) :
    ∀ (ds : List (Delivery E)) (m : M) (cr : String),
      ((updCallsOf (runLoop u v m cr ds).trace).all Msg.isOrdinary) = true := by
  intro ds
  induction ds with
  | nil => intro m cr; rfl
  | cons d rest ih =>
    intro m cr
    cases d with
    | errD e => rfl
    | msgD msg =>
      cases msg with
      | quitM => rfl
      | batchM cs =>
        simp only [runLoop, updCallsOf_append, updCallsOf_map_submit,
          List.nil_append]
        exact ih m cr
      | keyM k =>
        simp only [runLoop, updCallsOf_cons_updCall, updCallsOf_cons_submit,
          updCallsOf_append, updCallsOf_map_outEv, List.nil_append,
          List.all_cons, Msg.isOrdinary, Bool.true_and]
        exact ih _ _
      | appM n =>
        simp only [runLoop, updCallsOf_cons_updCall, updCallsOf_cons_submit,
          updCallsOf_append, updCallsOf_map_outEv, List.nil_append,
          List.all_cons, Msg.isOrdinary, Bool.true_and]
        exact ih _ _

/-- Processing a non-terminal prefix and then a quit message returns nil and
contributes exactly the prefix's trace: nothing after the quit is touched. -/
theorem runLoop_append_quit {M E : Type}
    (u : Msg → M → M × Cmd) (v : M → String) :
    ∀ (pre : List (Delivery E)) (m : M) (cr : String) (post : List (Delivery E)),
      (∀ d ∈ pre, d.isTerminal = false) →
      runLoop u v m cr (pre ++ Delivery.msgD Msg.quitM :: post)
        = ⟨some none, (runLoop u v m cr pre).trace,
           (runLoop u v m cr pre).model, (runLoop u v m cr pre).currentRender⟩ := by
  intro pre
  induction pre with
  | nil => intro m cr post h; rfl
  | cons d rest ih =>
    intro m cr post h
    have hd : d.isTerminal = false := h d (List.mem_cons_self d rest)
    have hrest : ∀ x ∈ rest, x.isTerminal = false :=
      fun x hx => h x (List.mem_cons_of_mem d hx)
    cases d with
    | errD e => simp [Delivery.isTerminal] at hd
    | msgD msg =>
      cases msg with
      | quitM => simp [Delivery.isTerminal] at hd
      | batchM cs =>
        simp only [List.cons_append, runLoop, List.append_eq]
        rw [ih _ _ post hrest]
      | keyM k =>
        simp only [List.cons_append, runLoop, List.append_eq]
        rw [ih _ _ post hrest]
      | appM n =>
        simp only [List.cons_append, runLoop, List.append_eq]
        rw [ih _ _ post hrest]

theorem writeCount_append (a b : List OutAct) :
    writeCount (a ++ b) = writeCount a + writeCount b := by
  simp [writeCount, List.filter_append]

/-- The dispatch goroutine's messages come exactly from executing the
non-nil commands it received, in order. -/
theorem dispatchAll_eq (cs : List Cmd) :
    dispatchAll cs = (executedOf cs).map (fun f => f ()) := by
  induction cs with
  | nil => rfl
  | cons c cs ih =>
    cases c with
    | none => simp [dispatchAll, executedOf, dispatchOne] at ih ⊢; exact ih
    | some f => simp [dispatchAll, executedOf, dispatchOne] at ih ⊢; exact ih

/-! ## Claim theorems -/

/-- Claim C1 (code bug, evaluation at the failing input).  The claim says the
number of lines cleared equals the number of explicit line breaks in the
*previously* cached frame, with the clear skipped exactly when that count is
zero.  The code (tea.go lines 169-170) assigns `p.currentRender = view`
*before* counting, so it counts `"\r\n"` in the *new*, not-yet-normalized
frame instead.  Concretely: with previous frame `"a\r\nb"` (one line break)
and new view `"c"`, no clear is issued at all; with previous frame `"a"`
(zero line breaks) and new view `"x\r\ny"`, one line is cleared. -/
theorem render_clear_count_from_new_frame :
    renderStep (fun _ : Unit => "c") "a\r\nb" () = ("c", [OutAct.write "c"]) ∧
    countCRLFStr "a\r\nb" = 1 ∧
    renderStep (fun _ : Unit => "x\r\ny") "a" ()
      = ("x\r\ny", [OutAct.clearLines 1, OutAct.write "x\r\r\ny"]) ∧
    countCRLFStr "a" = 0 :=
  ⟨rfl, rfl, rfl, rfl⟩

/-- Claim C2 (code bug, evaluation at the failing input).  The claim says that
on a read failure the input feeder delivers the error and then stops, with no
further message delivery and no further reads.  The goroutine (tea.go lines
105-113) has no `return` after `errs <- err`: it falls through, sends
`KeyMsg(msg)` built from the failed read, and loops into another read.  With
`ReadKey` yielding first `(key 0, error 7)` and then `(key 1, no error)`, the
feeder's operations after sending the error are a key-message send for the
failed read, another read, and another key-message send. -/
theorem feeder_continues_after_failed_read :
    feederTrace [(0, some 7), (1, (none : Option Nat))]
      = [FeedAct.readAct, FeedAct.sendErr 7, FeedAct.sendMsg (Msg.keyM 0),
         FeedAct.readAct, FeedAct.sendMsg (Msg.keyM 1)] :=
  rfl

/-- Claim C3 counterexample.  The claim says only non-nil commands are handed
to the dispatcher; but the loop sends the command returned by the update
function on `cmds` unconditionally (tea.go line 154).  With an update function
returning the nil command, processing one ordinary message hands the nil
command to the dispatch goroutine. -/
theorem nil_command_reaches_dispatcher :
    (none : Cmd) ∈ submitsOf
      ((runLoop incUpdate constEmptyView 0 ""
        ([Delivery.msgD (Msg.appM 0)] : List (Delivery Nat))).trace) := by
  have h : submitsOf ((runLoop incUpdate constEmptyView 0 ""
      ([Delivery.msgD (Msg.appM 0)] : List (Delivery Nat))).trace)
      = [(none : Cmd)] := rfl
  rw [h]
  exact List.mem_singleton_self _

/-- Claim C3 (amended): the loop submits the update function's returned
command even when nil, but the dispatch goroutine executes only the non-nil
commands (tea.go lines 121-127): a nil command spawns no execution and
produces no message, so no spurious execution occurs and no spurious message
is produced. -/
theorem dispatcher_executes_only_nonnil :
    ∀ {M E : Type} (u : Msg → M → M × Cmd) (v : M → String) (m : M)
      (cr : String) (ds : List (Delivery E)),
      dispatchAll (submitsOf (runLoop u v m cr ds).trace)
        = (executedOf (submitsOf (runLoop u v m cr ds).trace)).map
            (fun f => f ()) ∧
      dispatchOne (none : Cmd) = [] :=
  fun _ _ _ _ _ => ⟨dispatchAll_eq _, rfl⟩

/-- Claim C4: whenever a quit message is delivered to the loop, `Start`
returns a nil error, and nothing after the quit is processed: the whole trace
(in particular every update-function invocation) equals the trace produced by
the deliveries strictly before the quit. -/
theorem quit_returns_nil_and_stops_transitions :
    ∀ {M E : Type} (p : Program M) (pre post : List (Delivery E)),
      (∀ d ∈ pre, d.isTerminal = false) →
      (start p none (pre ++ Delivery.msgD Msg.quitM :: post)).retval
          = some none ∧
      (start p none (pre ++ Delivery.msgD Msg.quitM :: post)).trace
          = (start p none pre).trace := by
  intro M E p pre post h
  simp only [start]
  rw [runLoop_append_quit p.update p.view pre _ _ post h]
  exact ⟨rfl, rfl⟩

/-- Claim C4 witness: a concrete run with one ordinary message before the
quit and one after it. -/
theorem quit_returns_nil_and_stops_transitions_witness :
    (∀ d ∈ ([Delivery.msgD (Msg.appM 0)] : List (Delivery Nat)),
        d.isTerminal = false) ∧
    (start progZero none (([Delivery.msgD (Msg.appM 0)] : List (Delivery Nat))
        ++ Delivery.msgD Msg.quitM :: [Delivery.msgD (Msg.appM 1)])).retval
      = some none ∧
    (start progZero none (([Delivery.msgD (Msg.appM 0)] : List (Delivery Nat))
        ++ Delivery.msgD Msg.quitM :: [Delivery.msgD (Msg.appM 1)])).trace
      = (start progZero none
          ([Delivery.msgD (Msg.appM 0)] : List (Delivery Nat))).trace :=
  ⟨by decide,
   quit_returns_nil_and_stops_transitions progZero _ _ (by decide)⟩

/-- Claim C5: consuming a batch-signal message sends every contained command
on `cmds` exactly once, in list order, and adds nothing else: the step's
whole contribution to the trace is `cs.map Ev.submit`, and in any run every
message passed to the update function is ordinary, so the batch message
itself never reaches the update function. -/
theorem batch_submits_all_in_order_without_transition :
    ∀ {M E : Type} (u : Msg → M → M × Cmd) (v : M → String) (m : M)
      (cr : String) (cs : List Cmd) (rest ds : List (Delivery E)),
      runLoop u v m cr (Delivery.msgD (Msg.batchM cs) :: rest)
        = ⟨(runLoop u v m cr rest).retval,
           cs.map Ev.submit ++ (runLoop u v m cr rest).trace,
           (runLoop u v m cr rest).model,
           (runLoop u v m cr rest).currentRender⟩ ∧
      ((updCallsOf (runLoop u v m cr ds).trace).all Msg.isOrdinary) = true :=
  fun u v m cr _ _ ds => ⟨rfl, runLoop_updCalls_all_ordinary u v ds m cr⟩

/-- Claim C6: after any sequence of ordinary messages, the loop's model is
the left fold of (the first component of) the update function over the
message sequence, starting from the initial model; the delivery wrapper
carries no origin information, so only the message sequence determines the
result. -/
theorem final_state_is_fold_of_deliveries :
    ∀ {M E : Type} (u : Msg → M → M × Cmd) (v : M → String) (msgs : List Msg)
      (m : M) (cr : String),
      (∀ x ∈ msgs, x.isOrdinary = true) →
      (runLoop u v m cr (msgs.map Delivery.msgD) : RunRes M E).model
        = msgs.foldl (fun s x => (u x s).1) m := by
  intro M E u v msgs
  induction msgs with
  | nil => intro m cr h; rfl
  | cons x rest ih =>
    intro m cr h
    have hx : x.isOrdinary = true := h x (List.mem_cons_self x rest)
    have hrest : ∀ y ∈ rest, y.isOrdinary = true :=
      fun y hy => h y (List.mem_cons_of_mem x hy)
    cases x with
    | quitM => simp [Msg.isOrdinary] at hx
    | batchM cs => simp [Msg.isOrdinary] at hx
    | keyM k =>
      simp only [List.map_cons, runLoop, List.foldl_cons]
      exact ih _ _ hrest
    | appM n =>
      simp only [List.map_cons, runLoop, List.foldl_cons]
      exact ih _ _ hrest

/-- Claim C6 witness: two ordinary messages (one key event, one application
message) through the increment update give model `2`, the fold's value. -/
theorem final_state_is_fold_of_deliveries_witness :
    (∀ x ∈ [Msg.appM 0, Msg.keyM 1], x.isOrdinary = true) ∧
    (runLoop incUpdate constEmptyView 0 ""
        ([Msg.appM 0, Msg.keyM 1].map Delivery.msgD) : RunRes Nat Nat).model
      = [Msg.appM 0, Msg.keyM 1].foldl (fun s x => (incUpdate x s).1) 0 :=
  ⟨by decide,
   final_state_is_fold_of_deliveries incUpdate constEmptyView
     [Msg.appM 0, Msg.keyM 1] 0 "" (by decide)⟩

/-- Claim C7: `Batch` applied to zero commands returns the nil command, and
whenever `Batch` returns a non-nil command, running it yields the batch
message of a nonempty command list — an empty batch message is never
produced. -/
theorem batch_of_zero_commands_is_nil :
    Batch [] = none ∧
    ∀ (cs : List Cmd) (c : Unit → Msg),
      Batch cs = some c → c () = Msg.batchM cs ∧ cs ≠ [] := by
  refine ⟨rfl, ?_⟩
  intro cs c h
  cases cs with
  | nil => simp [Batch] at h
  | cons a l =>
    simp only [Batch, List.length_cons] at h
    rw [if_neg (by simp)] at h
    injection h with h2
    subst h2
    exact ⟨rfl, List.cons_ne_nil a l⟩

/-- Claim C7 witness: `Batch` of one (nil) command is a command producing the
batch message of that nonempty list. -/
theorem batch_of_zero_commands_is_nil_witness :
    (fun _ : Unit => Msg.batchM [(none : Cmd)]) () = Msg.batchM [(none : Cmd)] ∧
    ([(none : Cmd)] : List Cmd) ≠ [] :=
  batch_of_zero_commands_is_nil.2 [none] (fun _ => Msg.batchM [none]) rfl

/-- Claim C8 counterexample.  The claim says two successive render calls whose
states produce the same frame string cause exactly one terminal write; but
when that frame also equals the previously cached frame (here the fresh
program's empty cache with an empty view), both calls are no-ops and zero
writes occur. -/
theorem render_twice_unchanged_zero_writes :
    writeCount ((renderStep constEmptyView progZero.currentRender 0).2
      ++ (renderStep constEmptyView
            (renderStep constEmptyView progZero.currentRender 0).1 0).2) = 0 ∧
    writeCount ((renderStep constEmptyView progZero.currentRender 0).2
      ++ (renderStep constEmptyView
            (renderStep constEmptyView progZero.currentRender 0).1 0).2) ≠ 1 :=
  ⟨by decide, by decide⟩

/-- Claim C8 (amended): two successive render calls whose states produce the
same frame string cause *at most* one terminal write — exactly one when the
shared frame differs from the previously cached frame and none when it equals
it — and the second call leaves the frame cache unchanged and performs no
terminal output. -/
theorem render_same_frame_at_most_one_write :
    ∀ {M : Type} (v : M → String) (cr : String) (m1 m2 : M),
      v m1 = v m2 →
      renderStep v (renderStep v cr m1).1 m2 = ((renderStep v cr m1).1, []) ∧
      writeCount (renderStep v cr m1).2 = (if v m1 = cr then 0 else 1) := by
  intro M v cr m1 m2 h
  by_cases hc : v m1 = cr
  · constructor
    · simp [renderStep, hc, ← h]
    · simp [renderStep, hc, writeCount]
  · constructor
    · simp [renderStep, hc, ← h]
    · simp only [renderStep, if_neg hc]
      rw [writeCount_append]
      split
      · rfl
      · rfl

/-- Claim C8 witness: a fresh cache and two renders of the frame `"a"`: the
second call is a no-op and the pair performs one write. -/
theorem render_same_frame_at_most_one_write_witness :
    renderStep (fun _ : Unit => "a") (renderStep (fun _ : Unit => "a") "" ()).1 ()
        = ((renderStep (fun _ : Unit => "a") "" ()).1, []) ∧
    writeCount (renderStep (fun _ : Unit => "a") "" ()).2
        = (if (fun _ : Unit => "a") () = "" then 0 else 1) :=
  render_same_frame_at_most_one_write (fun _ : Unit => "a") "" () () rfl

/-- Claim C9: when acquiring raw mode fails, `Start` returns that error with
zero invocations of the restore operation; and whenever raw mode was entered
and the loop returns (quit or read error), the deferred restore runs exactly
once. -/
theorem terminal_restore_on_exit_paths :
    ∀ {M E : Type} (p : Program M) (e : E) (ds ds2 : List (Delivery E)),
      ((start p (some e) ds).retval = some (some e) ∧
        (start p (some e) ds).restoreCalls = 0) ∧
      ((start p none ds2).retval.isSome = true →
        (start p none ds2).restoreCalls = 1) := by
  intro M E p e ds ds2
  refine ⟨⟨rfl, rfl⟩, ?_⟩
  intro h
  simp only [start] at h ⊢
  simp [h]

/-- Claim C9 witness: a quit delivery makes the loop return, and the restore
operation runs exactly once. -/
theorem terminal_restore_on_exit_paths_witness :
    (start progZero (none : Option Nat) [Delivery.msgD Msg.quitM]).retval.isSome
        = true ∧
    (start progZero (none : Option Nat) [Delivery.msgD Msg.quitM]).restoreCalls
        = 1 :=
  ⟨rfl,
   (terminal_restore_on_exit_paths progZero 0 [] [Delivery.msgD Msg.quitM]).2 rfl⟩

/-- Claim C10: `NewProgram` leaves the frame cache at the empty string, and
if the view of the initial model is the empty string, the initial render is a
no-op: the cache stays empty and no terminal output happens. -/
theorem new_program_empty_cache_initial_render_noop :
    ∀ {M : Type} (i : Unit → M × Cmd) (u : Msg → M → M × Cmd)
      (v : M → String),
      (NewProgram i u v).currentRender = "" ∧
      (v (i ()).1 = "" →
        renderStep v (NewProgram i u v).currentRender (i ()).1 = ("", [])) := by
  intro M i u v
  refine ⟨rfl, fun h => ?_⟩
  simp [renderStep, NewProgram, h]

/-- Claim C10 witness: the concrete program with empty view renders nothing
initially. -/
theorem new_program_empty_cache_initial_render_noop_witness :
    (NewProgram zeroInit incUpdate constEmptyView).currentRender = "" ∧
    renderStep constEmptyView
        (NewProgram zeroInit incUpdate constEmptyView).currentRender
        (zeroInit ()).1 = ("", []) :=
  ⟨(new_program_empty_cache_initial_render_noop zeroInit incUpdate
      constEmptyView).1,
   (new_program_empty_cache_initial_render_noop zeroInit incUpdate
      constEmptyView).2 rfl⟩

end Tea
